import Mathlib

/-!
Verification development for the `rando` repository: a document-grounded
Gantt-chart synthesis and analysis service (`src/server.js`) with a
client-side chart layout engine (`src/Public/chart-renderer.js`,
`src/unnamed/part_000`).

The definitions below are a shallow embedding of the JavaScript source:
pure computations become Lean functions, the process-wide mutable cache
(`researchTextCache` / `researchFilesCache`) becomes explicit state
passing, exceptions become `Except` / `Option`, and JavaScript numbers
are modelled as `Nat` / `Int` / `ℚ` (the date arithmetic in the renderer
divides integer millisecond differences, so fractions are exact
rationals; no floating-point rounding is relevant at the magnitudes
involved).
-/

/-! ## String ordering (model of `localeCompare`-based sorting)

`src/server.js` line 158 sorts uploaded files with
`a.originalname.localeCompare(b.originalname)`.  We model the comparator
as a total lexicographic order on the character sequence; any total
order supports the determinism analysis of claim C3.  `Array.prototype.sort`
is stable (ES2019), modelled below with Mathlib's stable `insertionSort`. -/

/-- Lexicographic `≤` on character lists (kernel-computable, unlike
`String.le` which is defined by well-founded recursion on iterators). -/
def charListLe : List Char → List Char → Bool
  | [], _ => true
  | _ :: _, [] => false
  | x :: xs, y :: ys => if x = y then charListLe xs ys else decide (x < y)

/-- Lexicographic `≤` on strings, the model of the `localeCompare` order. -/
def strLe (a b : String) : Prop := charListLe a.data b.data = true

instance : DecidableRel strLe := fun a b =>
  inferInstanceAs (Decidable (charListLe a.data b.data = true))

instance : DecidableEq (Except String String) := fun a b =>
  match a, b with
  | .ok x, .ok y => if h : x = y then .isTrue (by rw [h]) else .isFalse (by simp [h])
  | .error x, .error y => if h : x = y then .isTrue (by rw [h]) else .isFalse (by simp [h])
  | .ok _, .error _ => .isFalse (by simp)
  | .error _, .ok _ => .isFalse (by simp)

structure UploadFile where
  originalname : String
  isDocx : Bool
  convertToHtml : Except String String
  utf8Text : String
deriving DecidableEq, Repr

/-- Order on files used by `req.files.sort((a, b) => a.originalname.localeCompare(b.originalname))`. -/
def fileLE (a b : UploadFile) : Prop := strLe a.originalname b.originalname

instance : DecidableRel fileLE := fun a b =>
  inferInstanceAs (Decidable (strLe a.originalname b.originalname))

/-- Stable sort of the uploaded files by filename (server.js line 158). -/
def sortFiles (files : List UploadFile) : List UploadFile :=
  List.insertionSort fileLE files

/-- Per-file text extraction (server.js lines 163-171): `.docx` files go
through the mammoth conversion (which can fail), other files are the
UTF-8 buffer text (which cannot fail). -/
def extractFileText (f : UploadFile) : Except String String :=
  if f.isDocx then f.convertToHtml else .ok f.utf8Text

/-- Start marker written before each file body (server.js line 160). -/
def startMarker (name : String) : String :=
  "\n\n--- Start of file: " ++ name ++ " ---\n"

/-- End marker written after each file body (server.js line 172). -/
def endMarker (name : String) : String :=
  "\n--- End of file: " ++ name ++ " ---\n"

/-- The Grounding Store: the two process-wide globals of server.js
(lines 48-49), `researchTextCache` and `researchFilesCache`. -/
structure ServerState where
  researchTextCache : String
  researchFilesCache : List String
deriving DecidableEq, Repr

/-- Extraction loop of `POST /generate-chart` (server.js lines 159-173):
for each file in sorted order, append the start marker and push the
filename, then extract the body; a convert error propagates out of the
loop immediately (caught by the surrounding `try`), leaving the caches
as they are at that point.  On success append body and end marker and
continue. -/
def processFiles : List UploadFile → ServerState → ServerState × Option String
  | [], st => (st, none)
  | f :: rest, st =>
    let st1 : ServerState :=
      { researchTextCache := st.researchTextCache ++ startMarker f.originalname
        researchFilesCache := st.researchFilesCache ++ [f.originalname] }
    match extractFileText f with
    | .error e => (st1, some e)
    | .ok text =>
      processFiles rest
        { st1 with researchTextCache :=
            st1.researchTextCache ++ text ++ endMarker f.originalname }

/-- Outcome of the extraction phase of the `/generate-chart` handler:
either the 500 extraction-failure response (server.js line 177), or the
handler proceeds to build the Gemini prompt from the cached corpus. -/
inductive GenerateChartStep where
  | extractionError (status : Nat) (message : String)
  | proceed (corpus : String) (filenames : List String)
deriving DecidableEq, Repr

/-- The `/generate-chart` handler up to the external call (server.js
lines 150-178): unconditionally reset both caches (lines 152-153),
sort the files (line 158), run the extraction loop; a thrown extraction
error is answered with status 500 and the fixed message (line 177).
The previous store contents `_prev` are overwritten before any file is
touched. -/
def generateChartHandler (_prev : ServerState) (files : List UploadFile) :
    ServerState × GenerateChartStep :=
  let cleared : ServerState := { researchTextCache := "", researchFilesCache := [] }
  match processFiles (sortFiles files) cleared with
  | (st, some _e) => (st, .extractionError 500 "Error processing uploaded files.")
  | (st, none) => (st, .proceed st.researchTextCache st.researchFilesCache)

/-! ## Completion Client (server.js lines 52-146)

`callGeminiForJson` and `callGeminiForText` wrap one `fetch` per attempt
in a retry loop.  Each attempt's external outcome is modelled by a
`FetchResponse` (or a thrown network error); the response-shape checks,
safety-rating check and text extraction are translated below.  JSON
parsing of the returned text (`JSON.parse`) is modelled by a caller
supplied `parse` function; a parse error is an attempt failure. -/

structure GeminiPart where
  text : String

structure GeminiContent where
  parts : List GeminiPart

structure SafetyRating where
  category : String
  blocked : Bool

structure GeminiCandidate where
  content : Option GeminiContent
  safetyRatings : Option (List SafetyRating)

structure GeminiResult where
  candidates : Option (List GeminiCandidate)

/-- One HTTP response from the external API: `ok`/`status`/`errorText`
mirror the `fetch` response, `jsonBody` is the outcome of
`response.json()` (which can itself throw). -/
structure FetchResponse where
  ok : Bool
  status : Nat
  errorText : String
  jsonBody : Except String GeminiResult

/-- Response validation shared by both helpers (server.js lines 61-85 and
110-133): non-ok status throws; missing candidate/content throws; a
blocked safety rating throws; then `candidates[0].content.parts[0].text`
is read (an empty `parts` array makes that access throw in JS, modelled
as an error). -/
def geminiExtractText (fetch : Except String FetchResponse) : Except String String :=
  match fetch with
  | .error e => .error e
  | .ok response =>
    if response.ok = false then
      .error ("API call failed with status: " ++ toString response.status ++ " - "
        ++ response.errorText)
    else
      match response.jsonBody with
      | .error e => .error e
      | .ok result =>
        match result.candidates with
        | none => .error "Invalid response from AI API"
        | some cands =>
          match cands.head? with
          | none => .error "Invalid response from AI API"
          | some c0 =>
            match c0.content with
            | none => .error "Invalid response from AI API"
            | some content =>
              match (c0.safetyRatings.getD []).find? (fun r => r.blocked) with
              | some r => .error ("API call blocked due to safety rating: " ++ r.category)
              | none =>
                match content.parts.head? with
                | none => .error "Cannot read properties of undefined"
                | some p0 => .ok p0.text

/-- Attempt body of `callGeminiForJson` (server.js lines 54-87): extract
the text and parse it as JSON. -/
def geminiAttemptJson {V : Type} (parse : String → Except String V)
    (fetch : Except String FetchResponse) : Except String V :=
  match geminiExtractText fetch with
  | .error e => .error e
  | .ok text => parse text

/-- Attempt body of `callGeminiForText` (server.js lines 103-135): the
raw text is returned unmodified. -/
def geminiAttemptText (fetch : Except String FetchResponse) : Except String String :=
  geminiExtractText fetch

/-- Trace of one run of the retry loop: the final result, how many
attempts were issued, and the `setTimeout` delays (ms) that were awaited
between attempts. -/
structure RetryTrace (V : Type) where
  result : Except String V
  attempts : Nat
  delays : List Nat
deriving Repr

/-- Retry loop shared verbatim by both helpers (server.js lines 53-97 and
102-145): `for (let attempt = 0; attempt < retryCount; attempt++)`.
`remaining` counts the loop iterations still allowed (`retryCount -
attempt`), so the source's last-attempt test `attempt >= retryCount - 1`
is `remaining = 0` after consuming one iteration.  On a non-final failed
attempt the loop sleeps `1000 * (attempt + 1)` ms and continues; after
the loop the dead-code `throw new Error('All API retry attempts
failed.')` is reached only when `retryCount = 0`. -/
def geminiRetryLoop {V : Type} (body : Nat → Except String V) :
    Nat → Nat → List Nat → RetryTrace V
  | attempt, 0, delays => ⟨.error "All API retry attempts failed.", attempt, delays⟩
  | attempt, remaining + 1, delays =>
    match body attempt with
    | .ok v => ⟨.ok v, attempt + 1, delays⟩
    | .error e =>
      if remaining = 0 then ⟨.error e, attempt + 1, delays⟩
      else geminiRetryLoop body (attempt + 1) remaining (delays ++ [1000 * (attempt + 1)])

/-- `callGeminiForJson(payload, retryCount = 3)` (server.js line 52); all
three endpoints call it with the default `retryCount = 3`. -/
def callGeminiForJson {V : Type} (parse : String → Except String V)
    (fetches : Nat → Except String FetchResponse) (retryCount : Nat) : RetryTrace V :=
  geminiRetryLoop (fun attempt => geminiAttemptJson parse (fetches attempt)) 0 retryCount []

/-- `callGeminiForText(payload, retryCount = 3)` (server.js line 101). -/
def callGeminiForText (fetches : Nat → Except String FetchResponse)
    (retryCount : Nat) : RetryTrace String :=
  geminiRetryLoop (fun attempt => geminiAttemptText (fetches attempt)) 0 retryCount []

/-! ## Request validation (server.js lines 296-301 and 399-418) -/

/-- Model of `String.prototype.trim`: strip leading and trailing
whitespace (kernel-computable, unlike `String.trim`). -/
def trimStr (s : String) : String :=
  ⟨((s.data.dropWhile Char.isWhitespace).reverse.dropWhile Char.isWhitespace).reverse⟩

/-- JavaScript falsiness of a possibly absent string field: `undefined`,
`null` and `""` are falsy. -/
def optFalsy : Option String → Bool
  | none => true
  | some s => s = ""

/-- Body of `POST /ask-question` (fields may be absent). -/
structure AskBody where
  taskName : Option String
  entity : Option String
  question : Option String

/-- Body of `POST /get-task-analysis`. -/
structure AnalysisBody where
  taskName : Option String
  entity : Option String

/-- Outcome of a request handler before the external call: either an
early `res.status(...).json({ error })` rejection, or the handler goes
on to build the prompt and invoke the Completion Client with the given
field values. -/
inductive HandlerStep where
  | reject (status : Nat) (error : String)
  | callGemini (fields : List String)
deriving DecidableEq, Repr

/-- Validation of `POST /ask-question` (server.js lines 399-418), in
source order: question falsy or blank after trim; entity falsy or blank;
taskName falsy or blank; trimmed question longer than 1000.  Only after
all four checks does the handler build the payload and call
`callGeminiForText`. -/
def askQuestionHandler (b : AskBody) : HandlerStep :=
  if optFalsy b.question || (trimStr (b.question.getD "") = "") then
    .reject 400 "Question is required and must be non-empty"
  else if optFalsy b.entity || (trimStr (b.entity.getD "") = "") then
    .reject 400 "Entity is required"
  else if optFalsy b.taskName || (trimStr (b.taskName.getD "") = "") then
    .reject 400 "Task name is required"
  else if 1000 < (trimStr (b.question.getD "")).length then
    .reject 400 "Question too long (max 1000 characters)"
  else
    .callGemini [b.taskName.getD "", b.entity.getD "", b.question.getD ""]

/-- Validation of `POST /get-task-analysis` (server.js lines 296-301):
`if (!taskName || !entity)` rejects with 400 before the prompt is built. -/
def getTaskAnalysisHandler (b : AnalysisBody) : HandlerStep :=
  if optFalsy b.taskName || optFalsy b.entity then
    .reject 400 "Missing taskName or entity"
  else
    .callGemini [b.taskName.getD "", b.entity.getD ""]

/-! ## ChartDocument rows and the renderer's row loop
(src/Public/chart-renderer.js lines 156-199, src/unnamed/part_000 lines
188-232; the two copies are identical here) -/

structure Bar where
  startCol : Option Int
  endCol : Option Int
  color : String
deriving DecidableEq, Repr

structure Row where
  title : String
  isSwimlane : Bool
  entity : String
  bar : Option Bar
deriving DecidableEq, Repr

/-- Identity posted to `/get-task-analysis` when a rendered task is
clicked. -/
structure TaskIdentifier where
  taskName : String
  entity : String
deriving DecidableEq, Repr

/-- Observable outcome of rendering one data row: whether a bar element
was created (and with which `data-color`), and whether click listeners
opening the analysis modal were attached (and for which identity). -/
structure RowRender where
  barDrawn : Bool
  barColor : Option String
  clickable : Bool
  clickTarget : Option TaskIdentifier
deriving DecidableEq, Repr

/-- Per-row behaviour of `setupChart`'s data-row loop: the bar element
and the click listeners are both created only under
`!isSwimlane && row.bar && row.bar.startCol != null`; the bar color
attribute is `bar.color || 'default'`. -/
def renderRow (row : Row) : RowRender :=
  match row.bar with
  | none => ⟨false, none, false, none⟩
  | some bar =>
    if !row.isSwimlane && bar.startCol.isSome then
      { barDrawn := true
        barColor := some (if bar.color = "" then "default" else bar.color)
        clickable := true
        clickTarget := some ⟨row.title, row.entity⟩ }
    else ⟨false, none, false, none⟩

/-! ## Client-side chart response validation
(src/unnamed/part_000, `handleChartGenerate`, lines 1040-1070) -/

/-- Shape of the parsed `/generate-chart` response as the client checks
it: either field can be absent. -/
structure GanttClientData where
  timeColumns : Option (List String)
  data : Option (List Row)
deriving DecidableEq, Repr

/-- Response of the `/generate-chart` fetch as seen by
`handleChartGenerate`: `ok`/`status`, whether the error response had a
JSON content type, its `error` field, its text, and the parsed body. -/
structure ChartFetchResponse where
  ok : Bool
  status : Nat
  contentTypeJson : Bool
  errorField : Option String
  bodyText : String
  body : Option GanttClientData

def invalidStructureMessage : String :=
  "Invalid chart data structure received from server"

def noTasksMessage : String :=
  "The AI was unable to find any tasks or time columns in the provided documents. Please check your files or try a different prompt."

/-- Model of `text.substring(0, 200)`. -/
def takeStr (n : Nat) (s : String) : String := ⟨s.data.take n⟩

/-- Error message for a non-ok `/generate-chart` response
(part_000 lines 1040-1055): prefer the JSON `error` field, else the
first 200 characters of the body text, else `Server error: <status>`. -/
def transportErrorMessage (resp : ChartFetchResponse) : String :=
  let base := "Server error: " ++ toString resp.status
  if resp.contentTypeJson then
    match resp.errorField with
    | some m => m
    | none => base
  else
    if takeStr 200 resp.bodyText = "" then base else takeStr 200 resp.bodyText

/-- Post-fetch processing of `handleChartGenerate` (part_000 lines
1040-1070): a non-ok response throws the transport message; a missing
body or missing `timeColumns`/`data` field throws the structure message;
present but empty `timeColumns` or `data` throws the semantic
no-tasks message; otherwise the chart data is accepted (stored in
sessionStorage and rendered). -/
def handleChartResponse (resp : ChartFetchResponse) : Except String GanttClientData :=
  if resp.ok = false then .error (transportErrorMessage resp)
  else
    match resp.body with
    | none => .error invalidStructureMessage
    | some gd =>
      match gd.timeColumns, gd.data with
      | some tc, some rows =>
        if tc.length = 0 ∨ rows.length = 0 then .error noTasksMessage
        else .ok gd
      | _, _ => .error invalidStructureMessage

/-! ## Date model for the today-marker computation
(src/Public/chart-renderer.js lines 296-431)

JavaScript `Date` values are modelled as a proleptic-Gregorian calendar
date plus an hour-of-day; `setupChart` anchors the marker at
`new Date('2025-11-14T12:00:00')`, i.e. hour 12.  Differences of two
`Date` objects divided by `86400000` become exact rationals. -/

structure Date where
  year : Nat
  month : Nat
  day : Nat
deriving DecidableEq, Repr

structure DateTime where
  date : Date
  hour : Nat
deriving DecidableEq, Repr

def isLeapYear (y : Nat) : Bool :=
  (y % 4 = 0 && y % 100 ≠ 0) || y % 400 = 0

def daysInMonth (y m : Nat) : Nat :=
  if m = 2 then (if isLeapYear y then 29 else 28)
  else if m = 4 ∨ m = 6 ∨ m = 9 ∨ m = 11 then 30
  else 31

/-- Days in year `y` strictly before month `m` (months are 1-based). -/
def daysBeforeMonth (y : Nat) : Nat → Nat
  | 0 => 0
  | 1 => 0
  | m + 2 => daysBeforeMonth y (m + 1) + daysInMonth y (m + 1)

def dayOfYear (d : Date) : Nat := daysBeforeMonth d.year d.month + d.day

/-- Gregorian day number (rata die: `⟨1, 1, 1⟩` maps to 1, a Monday). -/
def rataDie (d : Date) : Nat :=
  365 * (d.year - 1) + (d.year - 1) / 4 + (d.year - 1) / 400
    - (d.year - 1) / 100 + dayOfYear d

/-- JavaScript `getDay()`: 0 = Sunday … 6 = Saturday. -/
def jsDayOfWeek (d : Date) : Nat := rataDie d % 7

/-- `d.getUTCDay() || 7` in `getWeek`: ISO day number, Monday 1 … Sunday 7. -/
def isoDayNum (d : Date) : Nat :=
  if jsDayOfWeek d = 0 then 7 else jsDayOfWeek d

/-- ISO-8601 week number, translated from `getWeek` (chart-renderer.js
lines 425-431): shift the date to the Thursday of its week
(`d.setUTCDate(d.getUTCDate() + 4 - dayNum)`), take Jan 1 of the shifted
date's year, and return `ceil(((d - yearStart) / 86400000 + 1) / 7)`.
The shifted day number is within 3 days of the input, so its year is the
input's year or a neighbour. -/
def getWeek (date : Date) : Nat :=
  let target := rataDie date + 4 - isoDayNum date
  let ty :=
    if target < rataDie ⟨date.year, 1, 1⟩ then date.year - 1
    else if rataDie ⟨date.year + 1, 1, 1⟩ ≤ target then date.year + 1
    else date.year
  (target - rataDie ⟨ty, 1, 1⟩ + 1 + 6) / 7

/-! Label-format tests, translated from the regular expressions of
`findTodayColumnPosition`: `/^\d{4}$/`, `/^Q[1-4]\s\d{4}$/`,
`/^[A-Za-z]{3}\s\d{4}$/`, `/^W\d{1,2}\s\d{4}$/`. -/

def isYearFormat (s : String) : Bool :=
  match s.data with
  | [a, b, c, d] => a.isDigit && b.isDigit && c.isDigit && d.isDigit
  | _ => false

def isQuarterFormat (s : String) : Bool :=
  match s.data with
  | ['Q', q, w, a, b, c, d] =>
    ('1' ≤ q && q ≤ '4') && w.isWhitespace
      && (a.isDigit && b.isDigit && c.isDigit && d.isDigit)
  | _ => false

def isMonthFormat (s : String) : Bool :=
  match s.data with
  | [x, y, z, w, a, b, c, d] =>
    (x.isAlpha && y.isAlpha && z.isAlpha) && w.isWhitespace
      && (a.isDigit && b.isDigit && c.isDigit && d.isDigit)
  | _ => false

def isWeekFormat (s : String) : Bool :=
  match s.data with
  | ['W', n, w, a, b, c, d] =>
    n.isDigit && w.isWhitespace && (a.isDigit && b.isDigit && c.isDigit && d.isDigit)
  | ['W', n1, n2, w, a, b, c, d] =>
    (n1.isDigit && n2.isDigit) && w.isWhitespace
      && (a.isDigit && b.isDigit && c.isDigit && d.isDigit)
  | _ => false

/-- `Array.prototype.indexOf` on strings: first index of an equal
element, `null` for `-1`. -/
def indexOfStr (s : String) : List String → Option Nat
  | [] => none
  | c :: rest => if c = s then some 0 else (indexOfStr s rest).map (· + 1)

def monthShortName (m : Nat) : String :=
  ["Jan", "Feb", "Mar", "Apr", "May", "Jun",
   "Jul", "Aug", "Sep", "Oct", "Nov", "Dec"].getD (m - 1) ""

/-- 1-based quarter: `Math.floor(today.getMonth() / 3) + 1` with the
0-based JS month. -/
def quarterOf (d : Date) : Nat := (d.month - 1) / 3 + 1

/-- First month of the date's quarter (1-based). -/
def quarterStartMonth (q : Nat) : Nat := (q - 1) * 3 + 1

def startOfQuarter (d : Date) : Date := ⟨d.year, quarterStartMonth (quarterOf d), 1⟩

/-- First day of the following quarter; `new Date(y, qsm + 3, 0)` is the
day before this. -/
def nextQuarterStart (d : Date) : Date :=
  if quarterOf d = 4 then ⟨d.year + 1, 1, 1⟩
  else ⟨d.year, quarterStartMonth (quarterOf d) + 3, 1⟩

/-- `(a - b) / 86400000` for two midnight `Date` values, in days. -/
def daysBetween (a b : Date) : ℚ := (rataDie b : ℚ) - (rataDie a : ℚ)

/-- `(today - start) / 86400000` where `start` is a midnight `Date`:
whole days plus the fractional hour-of-day part. -/
def elapsedDays (t : DateTime) (start : Date) : ℚ :=
  ((rataDie t.date : ℚ) - (rataDie start : ℚ)) + (t.hour : ℚ) / 24

def yearLabel (t : DateTime) : String := toString t.date.year

def quarterLabel (t : DateTime) : String :=
  "Q" ++ toString (quarterOf t.date) ++ " " ++ toString t.date.year

def monthLabel (t : DateTime) : String :=
  monthShortName t.date.month ++ " " ++ toString t.date.year

def weekLabel (t : DateTime) : String :=
  "W" ++ toString (getWeek t.date) ++ " " ++ toString t.date.year

/-- Year-branch fraction (lines 367-371): `(today - startOfYear) /
(endOfYear - startOfYear)` where `endOfYear` is Dec 31 at midnight. -/
def yearPercentage (t : DateTime) : ℚ :=
  elapsedDays t ⟨t.date.year, 1, 1⟩ /
    daysBetween ⟨t.date.year, 1, 1⟩ ⟨t.date.year, 12, 31⟩

/-- Quarter-branch fraction (lines 383-388): `(today - startOfQuarter) /
(endOfQuarter - startOfQuarter)`, `endOfQuarter` being the 0th day of
the month after the quarter, at midnight. -/
def quarterPercentage (t : DateTime) : ℚ :=
  elapsedDays t (startOfQuarter t.date) /
    (((rataDie (nextQuarterStart t.date) - 1 : Nat) : ℚ)
      - (rataDie (startOfQuarter t.date) : ℚ))

/-- Month-branch fraction (lines 398-402): `today.getDate() /
endOfMonth.getDate()` — integer day over days-in-month. -/
def monthPercentage (t : DateTime) : ℚ :=
  (t.date.day : ℚ) / (daysInMonth t.date.year t.date.month : ℚ)

/-- Week-branch fraction (lines 412-413): `(today.getDay() + 0.5) / 7`
with the Sunday-based JS day-of-week. -/
def weekPercentage (t : DateTime) : ℚ :=
  ((jsDayOfWeek t.date : ℚ) + 1 / 2) / 7

/-- `findTodayColumnPosition(today, timeColumns)` (chart-renderer.js
lines 355-418): dispatch on the format of the first label, look up the
bucket label for `today`, return its index and in-bucket fraction, and
return null when the columns are empty, the label is absent, or the
format is unknown.  The Lean translation is a total function: every
branch of the source either returns or falls through, and no operation
in it can throw. -/
def findTodayColumnPosition (today : DateTime) (timeColumns : List String) :
    Option (Nat × ℚ) :=
  match timeColumns with
  | [] => none
  | firstCol :: _ =>
    if isYearFormat firstCol then
      match indexOfStr (yearLabel today) timeColumns with
      | none => none
      | some index => some (index, yearPercentage today)
    else if isQuarterFormat firstCol then
      match indexOfStr (quarterLabel today) timeColumns with
      | none => none
      | some index => some (index, quarterPercentage today)
    else if isMonthFormat firstCol then
      match indexOfStr (monthLabel today) timeColumns with
      | none => none
      | some index => some (index, monthPercentage today)
    else if isWeekFormat firstCol then
      match indexOfStr (weekLabel today) timeColumns with
      | none => none
      | some index => some (index, weekPercentage today)
    else none

/-- Offset formula read off the spec wording for the week branch:
`(day-of-week + 0.5)/7` computed under ISO week conventions (weeks start
Monday), i.e. with the ISO day number Monday = 1 … Sunday = 7.  Declared
only to compare the spec reading against the source's `weekPercentage`,
which uses the Sunday-based JS `getDay()`. -/
def specIsoWeekPercentage (d : Date) : ℚ := ((isoDayNum d : ℚ) + 1 / 2) / 7

/-! ## Supporting lemmas -/

theorem charListLe_total (a b : List Char) :
    charListLe a b = true ∨ charListLe b a = true := by
  induction a generalizing b with
  | nil => exact Or.inl rfl
  | cons x xs ih =>
    cases b with
    | nil => exact Or.inr rfl
    | cons y ys =>
      by_cases hxy : x = y
      · subst hxy
        simpa [charListLe] using ih ys
      · rcases lt_or_gt_of_ne hxy with h | h
        · left; simp [charListLe, hxy, h]
        · right; simp [charListLe, Ne.symm hxy, h]

theorem charListLe_trans (a b c : List Char)
    (hab : charListLe a b = true) (hbc : charListLe b c = true) :
    charListLe a c = true := by
  induction a generalizing b c with
  | nil => rfl
  | cons x xs ih =>
    cases b with
    | nil => simp [charListLe] at hab
    | cons y ys =>
      cases c with
      | nil => simp [charListLe] at hbc
      | cons z zs =>
        by_cases hxy : x = y <;> by_cases hyz : y = z
        · subst hxy; subst hyz
          simp [charListLe] at hab hbc ⊢
          exact ih ys zs hab hbc
        · subst hxy
          simp [charListLe, hyz] at hbc ⊢
          exact hbc
        · subst hyz
          simp [charListLe, hxy] at hab ⊢
          exact hab
        · simp [charListLe, hxy, hyz] at hab hbc
          have hxz : x < z := lt_trans hab hbc
          simp [charListLe, ne_of_lt hxz, hxz]

theorem charListLe_antisymm (a b : List Char)
    (hab : charListLe a b = true) (hba : charListLe b a = true) : a = b := by
  induction a generalizing b with
  | nil =>
    cases b with
    | nil => rfl
    | cons y ys => simp [charListLe] at hba
  | cons x xs ih =>
    cases b with
    | nil => simp [charListLe] at hab
    | cons y ys =>
      by_cases hxy : x = y
      · subst hxy
        simp [charListLe] at hab hba
        exact congrArg (x :: ·) (ih ys hab hba)
      · simp [charListLe, hxy, Ne.symm hxy] at hab hba
        exact absurd (lt_trans hab hba) (lt_irrefl x)

/-! ## Facts about the extraction loop -/

theorem processFiles_cache_len_mono (l : List UploadFile) (st : ServerState) :
    st.researchTextCache.length ≤ ((processFiles l st).1).researchTextCache.length := by
  induction l generalizing st with
  | nil => simp [processFiles]
  | cons f rest ih =>
    simp only [processFiles]
    cases hx : extractFileText f with
    | error e => simp [String.length_append]
    | ok text =>
      refine le_trans ?_ (ih _)
      simp only [String.length_append]
      omega

theorem processFiles_error_cache_grows (l : List UploadFile) (st : ServerState)
    (e : String) (h : (processFiles l st).2 = some e) :
    st.researchTextCache.length < ((processFiles l st).1).researchTextCache.length := by
  induction l generalizing st with
  | nil => simp [processFiles] at h
  | cons f rest ih =>
    simp only [processFiles] at h ⊢
    cases hx : extractFileText f with
    | error e₂ =>
      simp only [hx]
      have hsm : 0 < (startMarker f.originalname).length := by
        simp only [startMarker, String.length_append]
        have : 0 < ("\n\n--- Start of file: " : String).length := by decide
        omega
      simp only [String.length_append]
      omega
    | ok text =>
      simp only [hx] at h ⊢
      refine lt_of_lt_of_le ?_ (processFiles_cache_len_mono rest _)
      have hsm : 0 < (startMarker f.originalname).length := by
        simp only [startMarker, String.length_append]
        have : 0 < ("\n\n--- Start of file: " : String).length := by decide
        omega
      simp only [String.length_append]
      omega

theorem processFiles_filenames (l : List UploadFile) (st : ServerState) :
    ∃ j, ((processFiles l st).1).researchFilesCache =
      st.researchFilesCache ++ (l.map UploadFile.originalname).take j := by
  induction l generalizing st with
  | nil => exact ⟨0, by simp [processFiles]⟩
  | cons f rest ih =>
    simp only [processFiles]
    cases hx : extractFileText f with
    | error e => exact ⟨1, by simp⟩
    | ok text =>
      obtain ⟨j, hj⟩ := ih
        { researchTextCache :=
            (st.researchTextCache ++ startMarker f.originalname) ++ text ++
              endMarker f.originalname
          researchFilesCache := st.researchFilesCache ++ [f.originalname] }
      exact ⟨j + 1, by simpa [List.append_assoc] using hj⟩

/-! ## Facts about the file sort -/

theorem eq_of_perm_of_map_eq_of_nodup {α β : Type} (f : α → β) :
    ∀ (l₁ l₂ : List α), l₁.Perm l₂ → l₁.map f = l₂.map f →
      (l₁.map f).Nodup → l₁ = l₂ := by
  intro l₁
  induction l₁ with
  | nil =>
    intro l₂ hp _ _
    cases l₂ with
    | nil => rfl
    | cons b t => exact absurd hp.length_eq (by simp)
  | cons a t ih =>
    intro l₂ hp hm hnd
    cases l₂ with
    | nil => exact absurd hp.length_eq (by simp)
    | cons b t₂ =>
      simp only [List.map_cons, List.cons.injEq] at hm
      obtain ⟨hfab, hmt⟩ := hm
      by_cases hab : a = b
      · subst hab
        have ht : t.Perm t₂ := hp.cons_inv
        have : t = t₂ :=
          ih t₂ ht hmt (List.nodup_cons.mp (by simpa using hnd)).2
        rw [this]
      · exfalso
        have ha : a ∈ b :: t₂ := hp.subset (by simp)
        have hat : a ∈ t₂ := by
          rcases List.mem_cons.mp ha with h | h
          · exact absurd h hab
          · exact h
        have hfa : f a ∈ t₂.map f := List.mem_map_of_mem f hat
        rw [← hmt] at hfa
        exact (List.nodup_cons.mp (by simpa using hnd)).1 hfa

theorem sortFiles_eq_of_perm_of_nodup (l₁ l₂ : List UploadFile)
    (hp : l₁.Perm l₂) (hnd : (l₁.map UploadFile.originalname).Nodup) :
    sortFiles l₁ = sortFiles l₂ := by
  haveI : IsTotal UploadFile fileLE :=
    ⟨fun a b => charListLe_total a.originalname.data b.originalname.data⟩
  haveI : IsTrans UploadFile fileLE :=
    ⟨fun a b c => charListLe_trans a.originalname.data b.originalname.data c.originalname.data⟩
  haveI : IsAntisymm String strLe :=
    ⟨fun a b hab hba => by
      cases a with
      | mk da =>
        cases b with
        | mk db => simp [charListLe_antisymm da db hab hba]⟩
  have hperm : (sortFiles l₁).Perm (sortFiles l₂) :=
    ((List.perm_insertionSort fileLE l₁).trans hp).trans
      (List.perm_insertionSort fileLE l₂).symm
  have hs₁ : List.Sorted fileLE (sortFiles l₁) := List.sorted_insertionSort fileLE l₁
  have hs₂ : List.Sorted fileLE (sortFiles l₂) := List.sorted_insertionSort fileLE l₂
  have hms₁ : List.Sorted strLe ((sortFiles l₁).map UploadFile.originalname) :=
    List.pairwise_map.mpr hs₁
  have hms₂ : List.Sorted strLe ((sortFiles l₂).map UploadFile.originalname) :=
    List.pairwise_map.mpr hs₂
  have hmeq : (sortFiles l₁).map UploadFile.originalname =
      (sortFiles l₂).map UploadFile.originalname :=
    List.eq_of_perm_of_sorted (hperm.map _) hms₁ hms₂
  have hnd' : ((sortFiles l₁).map UploadFile.originalname).Nodup :=
    (((List.perm_insertionSort fileLE l₁).map UploadFile.originalname).nodup_iff).mpr hnd
  exact eq_of_perm_of_map_eq_of_nodup UploadFile.originalname _ _ hperm hmeq hnd'

/-- Complete evaluation of a three-attempt run, by cases on the three
attempt outcomes. -/
theorem geminiRetryLoop_three {V : Type} (body : Nat → Except String V) :
    geminiRetryLoop body 0 3 [] =
      match body 0, body 1, body 2 with
      | .ok v, _, _ => ⟨.ok v, 1, []⟩
      | .error _, .ok v, _ => ⟨.ok v, 2, [1000]⟩
      | .error _, .error _, .ok v => ⟨.ok v, 3, [1000, 2000]⟩
      | .error _, .error _, .error e => ⟨.error e, 3, [1000, 2000]⟩ := by
  cases h0 : body 0 <;> cases h1 : body 1 <;> cases h2 : body 2 <;>
    simp [geminiRetryLoop, h0, h1, h2]

theorem geminiRetryLoop_three_attempts_le {V : Type} (body : Nat → Except String V) :
    (geminiRetryLoop body 0 3 []).attempts ≤ 3 := by
  rw [geminiRetryLoop_three]
  cases body 0 <;> cases body 1 <;> cases body 2 <;> simp

theorem geminiRetryLoop_three_delays {V : Type} (body : Nat → Except String V) :
    (geminiRetryLoop body 0 3 []).delays =
      (List.range ((geminiRetryLoop body 0 3 []).attempts - 1)).map
        (fun k => 1000 * (k + 1)) := by
  rw [geminiRetryLoop_three]
  cases body 0 <;> cases body 1 <;> cases body 2 <;>
    simp [List.range_succ]

example : jsDayOfWeek ⟨2025, 11, 14⟩ = 5 := by decide
example : jsDayOfWeek ⟨2025, 11, 16⟩ = 0 := by decide
example : getWeek ⟨2025, 11, 14⟩ = 46 := by decide
example : getWeek ⟨2025, 11, 16⟩ = 46 := by decide
example : getWeek ⟨2025, 1, 1⟩ = 1 := by decide
example : rataDie ⟨2025, 10, 1⟩ = 739525 := by decide
example : rataDie ⟨2025, 11, 14⟩ = 739569 := by decide
example : rataDie ⟨2025, 12, 31⟩ = 739616 := by decide
example : weekLabel ⟨⟨2025, 11, 14⟩, 12⟩ = "W46 2025" := by decide
example : quarterLabel ⟨⟨2025, 11, 14⟩, 12⟩ = "Q4 2025" := by decide
example : monthLabel ⟨⟨2025, 11, 14⟩, 12⟩ = "Nov 2025" := by decide
example : isQuarterFormat "Q1 2025" = true := by decide
example : isWeekFormat "W46 2025" = true := by decide
example : isMonthFormat "Nov 2025" = true := by decide
example : isYearFormat "2025" = true := by decide

example :
    processFiles [⟨"a.md", false, .ok "", "AAA"⟩] ⟨"", []⟩ =
      (⟨"\n\n--- Start of file: a.md ---\nAAA\n--- End of file: a.md ---\n", ["a.md"]⟩, none) := by
  decide

/-! ## Claim C1 -/

/-- C1 counterexample: the claim states that after a failed
decode/convert the Grounding Store is left without any partial corpus.
In the code the per-file loop appends to `researchTextCache` before and
during extraction and the `catch` block (server.js lines 175-178) does
not clear it, so after `a.md` extracts and `b.docx` fails to convert,
the store still holds the full block of `a.md` and the start marker of
`b.docx` — a nonempty partial corpus of the failed upload. -/
theorem C1_counterexample :
    (generateChartHandler ⟨"", []⟩
        [⟨"a.md", false, .ok "", "AAA"⟩, ⟨"b.docx", true, .error "corrupt", ""⟩]).2 =
      .extractionError 500 "Error processing uploaded files." ∧
    (generateChartHandler ⟨"", []⟩
        [⟨"a.md", false, .ok "", "AAA"⟩, ⟨"b.docx", true, .error "corrupt", ""⟩]).1.researchTextCache =
      "\n\n--- Start of file: a.md ---\nAAA\n--- End of file: a.md ---\n\n\n--- Start of file: b.docx ---\n" ∧
    (generateChartHandler ⟨"", []⟩
        [⟨"a.md", false, .ok "", "AAA"⟩, ⟨"b.docx", true, .error "corrupt", ""⟩]).1.researchTextCache ≠
      "" := by
  refine ⟨by decide, by decide, by decide⟩

/-- C1 (amended): when decoding or converting any file fails, the whole
request is aborted with the reported extraction failure (status 500,
"Error processing uploaded files."), but the Grounding Store is NOT left
empty: it retains the partial corpus accumulated before the failure
(which is always nonempty, since at least the failing file's start
marker was appended).  The previous upload's corpus is still gone,
because the store was cleared at the start of the request. -/
theorem C1_theorem (prev : ServerState) (files : List UploadFile) (e : String)
    (h : (processFiles (sortFiles files) ⟨"", []⟩).2 = some e) :
    (generateChartHandler prev files).2 =
        .extractionError 500 "Error processing uploaded files." ∧
      (generateChartHandler prev files).1.researchTextCache ≠ "" := by
  have hgrow := processFiles_error_cache_grows (sortFiles files) ⟨"", []⟩ e h
  rcases hpr : processFiles (sortFiles files) ⟨"", []⟩ with ⟨st, o⟩
  rw [hpr] at h hgrow
  simp only at h
  subst h
  have hgen : generateChartHandler prev files =
      (st, .extractionError 500 "Error processing uploaded files.") := by
    simp only [generateChartHandler]
    rw [hpr]
  rw [hgen]
  refine ⟨rfl, ?_⟩
  have hpos : 0 < st.researchTextCache.length := by simpa using hgrow
  intro hc
  simp only at hc
  rw [hc] at hpos
  simp at hpos

/-- C1 witness: the amended theorem applied to the concrete failing
upload of the counterexample. -/
theorem C1_witness :
    (processFiles
        (sortFiles [⟨"a.md", false, .ok "", "AAA"⟩, ⟨"b.docx", true, .error "corrupt", ""⟩])
        ⟨"", []⟩).2 = some "corrupt" ∧
    ((generateChartHandler ⟨"old corpus", ["old.md"]⟩
        [⟨"a.md", false, .ok "", "AAA"⟩, ⟨"b.docx", true, .error "corrupt", ""⟩]).2 =
        .extractionError 500 "Error processing uploaded files." ∧
      (generateChartHandler ⟨"old corpus", ["old.md"]⟩
        [⟨"a.md", false, .ok "", "AAA"⟩, ⟨"b.docx", true, .error "corrupt", ""⟩]).1.researchTextCache ≠
        "") :=
  ⟨by decide,
    C1_theorem ⟨"old corpus", ["old.md"]⟩
      [⟨"a.md", false, .ok "", "AAA"⟩, ⟨"b.docx", true, .error "corrupt", ""⟩]
      "corrupt" (by decide)⟩

/-! ## Claim C2 -/

/-- C2: both completion operations (`callGeminiForJson` and
`callGeminiForText`, each invoked by the endpoints with the default
`retryCount = 3`) make at most 3 attempts; the recorded backoff delays
are exactly `1000 * n` ms after failed attempt `n` (so `[1000]` after
one failure, `[1000, 2000]` after two); and when all three attempts
fail, the trace's result is the error of the third attempt, propagated
verbatim. -/
theorem C2_theorem :
    (∀ (V : Type) (parse : String → Except String V)
        (fetches : Nat → Except String FetchResponse),
      (callGeminiForJson parse fetches 3).attempts ≤ 3 ∧
        (callGeminiForJson parse fetches 3).delays =
          (List.range ((callGeminiForJson parse fetches 3).attempts - 1)).map
            (fun k => 1000 * (k + 1))) ∧
    (∀ fetches : Nat → Except String FetchResponse,
      (callGeminiForText fetches 3).attempts ≤ 3 ∧
        (callGeminiForText fetches 3).delays =
          (List.range ((callGeminiForText fetches 3).attempts - 1)).map
            (fun k => 1000 * (k + 1))) ∧
    (∀ (V : Type) (parse : String → Except String V)
        (fetches : Nat → Except String FetchResponse) (e₀ e₁ e₂ : String),
      geminiAttemptJson parse (fetches 0) = .error e₀ →
      geminiAttemptJson parse (fetches 1) = .error e₁ →
      geminiAttemptJson parse (fetches 2) = .error e₂ →
      (callGeminiForJson parse fetches 3).result = .error e₂ ∧
        (callGeminiForJson parse fetches 3).attempts = 3 ∧
        (callGeminiForJson parse fetches 3).delays = [1000, 2000]) ∧
    (∀ (fetches : Nat → Except String FetchResponse) (e₀ e₁ e₂ : String),
      geminiAttemptText (fetches 0) = .error e₀ →
      geminiAttemptText (fetches 1) = .error e₁ →
      geminiAttemptText (fetches 2) = .error e₂ →
      (callGeminiForText fetches 3).result = .error e₂ ∧
        (callGeminiForText fetches 3).attempts = 3 ∧
        (callGeminiForText fetches 3).delays = [1000, 2000]) := by
  refine ⟨?_, ?_, ?_, ?_⟩
  · intro V parse fetches
    exact ⟨geminiRetryLoop_three_attempts_le _, geminiRetryLoop_three_delays _⟩
  · intro fetches
    exact ⟨geminiRetryLoop_three_attempts_le _, geminiRetryLoop_three_delays _⟩
  · intro V parse fetches e₀ e₁ e₂ h0 h1 h2
    unfold callGeminiForJson
    rw [geminiRetryLoop_three]
    simp [h0, h1, h2]
  · intro fetches e₀ e₁ e₂ h0 h1 h2
    unfold callGeminiForText
    rw [geminiRetryLoop_three]
    simp [h0, h1, h2]

/-- C2 witness: three consecutive network failures, each attempt body
evaluating to the thrown error, with the expected trace. -/
theorem C2_witness :
    geminiAttemptJson (fun s => Except.ok s) (Except.error "network down") =
        Except.error "network down" ∧
      ((callGeminiForJson (fun s => Except.ok s) (fun _ => Except.error "network down") 3).result =
          Except.error "network down" ∧
        (callGeminiForJson (fun s => Except.ok s) (fun _ => Except.error "network down") 3).attempts = 3 ∧
        (callGeminiForJson (fun s => Except.ok s) (fun _ => Except.error "network down") 3).delays =
          [1000, 2000]) :=
  ⟨rfl,
    C2_theorem.2.2.1 String (fun s => Except.ok s) (fun _ => Except.error "network down")
      "network down" "network down" "network down" rfl rfl rfl⟩

/-! ## Claim C3 -/

/-- C3 counterexample: two distinct files that share the filename
`a.md`.  `Array.prototype.sort` is stable and `localeCompare` ties, so
the corpus depends on the upload order — the two permutations of the
same file set produce different corpus strings. -/
theorem C3_counterexample :
    List.Perm
        [(⟨"a.md", false, .ok "", "X"⟩ : UploadFile), ⟨"a.md", false, .ok "", "Y"⟩]
        [⟨"a.md", false, .ok "", "Y"⟩, ⟨"a.md", false, .ok "", "X"⟩] ∧
      (generateChartHandler ⟨"", []⟩
          [⟨"a.md", false, .ok "", "X"⟩, ⟨"a.md", false, .ok "", "Y"⟩]).1.researchTextCache ≠
        (generateChartHandler ⟨"", []⟩
          [⟨"a.md", false, .ok "", "Y"⟩, ⟨"a.md", false, .ok "", "X"⟩]).1.researchTextCache := by
  refine ⟨by decide, by decide⟩

/-- C3 (amended): corpus assembly is deterministic in the upload order
provided the filenames are pairwise distinct: any permutation of the
file list yields the same handler outcome (same corpus string, filename
list and result), independent of the previous store contents, because
the stable sort by filename then has a unique result.  With duplicate
filenames carrying different content the input order leaks into the
corpus (see the counterexample). -/
theorem C3_theorem (prev₁ prev₂ : ServerState) (l₁ l₂ : List UploadFile)
    (hp : l₁.Perm l₂) (hnd : (l₁.map UploadFile.originalname).Nodup) :
    generateChartHandler prev₁ l₁ = generateChartHandler prev₂ l₂ := by
  have hs := sortFiles_eq_of_perm_of_nodup l₁ l₂ hp hnd
  unfold generateChartHandler
  rw [hs]

/-- C3 witness: two files with distinct names uploaded in either order
produce identical handler outcomes. -/
theorem C3_witness :
    List.Perm
        [(⟨"b.md", false, .ok "", "B"⟩ : UploadFile), ⟨"a.md", false, .ok "", "A"⟩]
        [⟨"a.md", false, .ok "", "A"⟩, ⟨"b.md", false, .ok "", "B"⟩] ∧
      ([(⟨"b.md", false, .ok "", "B"⟩ : UploadFile), ⟨"a.md", false, .ok "", "A"⟩].map
          UploadFile.originalname).Nodup ∧
      generateChartHandler ⟨"", []⟩
          [⟨"b.md", false, .ok "", "B"⟩, ⟨"a.md", false, .ok "", "A"⟩] =
        generateChartHandler ⟨"stale", ["s.md"]⟩
          [⟨"a.md", false, .ok "", "A"⟩, ⟨"b.md", false, .ok "", "B"⟩] :=
  ⟨by decide, by decide,
    C3_theorem ⟨"", []⟩ ⟨"stale", ["s.md"]⟩
      [⟨"b.md", false, .ok "", "B"⟩, ⟨"a.md", false, .ok "", "A"⟩]
      [⟨"a.md", false, .ok "", "A"⟩, ⟨"b.md", false, .ok "", "B"⟩]
      (by decide) (by decide)⟩

/-! ## Claim C4 -/

/-- C4 counterexample: a task row (not a swimlane) whose bar has
`startCol = endCol = null` but carries a color.  The renderer's guard
`!isSwimlane && row.bar && row.bar.startCol != null` skips the whole
click-listener block for it, so it is not clickable and no analysis can
be requested from it, contradicting the claim that such tasks are
clickable like any other task. -/
theorem C4_counterexample :
    (⟨"Task X", false, "Entity Y", some ⟨none, none, "mid-grey"⟩⟩ : Row).isSwimlane = false ∧
      (renderRow ⟨"Task X", false, "Entity Y", some ⟨none, none, "mid-grey"⟩⟩).clickable = false ∧
      (renderRow ⟨"Task X", false, "Entity Y", some ⟨none, none, "mid-grey"⟩⟩).clickTarget = none := by
  refine ⟨rfl, by decide, by decide⟩

/-- C4 (amended): a rendered row is clickable exactly when it is a task
row (not a swimlane) with a bar whose `startCol` is non-null; in that
case the click listeners post its `{taskName, entity}` identity.  Task
rows with unknown timing (`startCol = null`) get no bar element and no
click listeners. -/
theorem C4_theorem (row : Row) :
    ((renderRow row).clickable = true ↔
      row.isSwimlane = false ∧ ∃ b, row.bar = some b ∧ b.startCol ≠ none) ∧
    ((renderRow row).clickable = true →
      (renderRow row).clickTarget = some ⟨row.title, row.entity⟩) := by
  cases hb : row.bar with
  | none =>
    refine ⟨?_, ?_⟩
    · simp [renderRow, hb]
    · simp [renderRow, hb]
  | some bar =>
    by_cases hs : (!row.isSwimlane && bar.startCol.isSome) = true
    · have hs' := hs
      simp only [Bool.and_eq_true, Bool.not_eq_true'] at hs'
      obtain ⟨h1, h2⟩ := hs'
      have hr : renderRow row =
          ⟨true, some (if bar.color = "" then "default" else bar.color), true,
            some ⟨row.title, row.entity⟩⟩ := by
        simp [renderRow, hb, hs]
      rw [hr]
      refine ⟨⟨fun _ => ⟨h1, bar, rfl, Option.isSome_iff_ne_none.mp h2⟩, fun _ => rfl⟩,
        fun _ => rfl⟩
    · have hr : renderRow row = ⟨false, none, false, none⟩ := by
        simp [renderRow, hb, hs]
      rw [hr]
      refine ⟨⟨fun hfalse => by simp at hfalse, ?_⟩, fun hfalse => by simp at hfalse⟩
      rintro ⟨h1, b, hbb, hnn⟩
      injection hbb with hbb
      subst hbb
      exfalso
      apply hs
      simp [h1, Option.isSome_iff_ne_none, hnn]

/-- C4 witness: a concrete timed task row is clickable and its click
target is its `{taskName, entity}` pair. -/
theorem C4_witness :
    (renderRow ⟨"Build", false, "Team", some ⟨some 1, some 2, "priority-red"⟩⟩).clickable = true ∧
      (renderRow ⟨"Build", false, "Team", some ⟨some 1, some 2, "priority-red"⟩⟩).clickTarget =
        some ⟨"Build", "Team"⟩ :=
  ⟨by decide,
    ( C4_theorem ⟨"Build", false, "Team", some ⟨some 1, some 2, "priority-red"⟩⟩).2 (by decide)⟩

/-! ## Claim C5 -/

/-- C5: a follow-up question that is empty after trimming (or absent) or
longer than 1000 characters after trimming, or whose entity or taskName
is missing or empty, is rejected synchronously with status 400 and one
of the four specific messages; a task-analysis request missing taskName
or entity is rejected with status 400 and its specific message.  In
both handlers the rejection happens before the Completion Client is
invoked (the `reject` outcome excludes the `callGemini` outcome). -/
theorem C5_theorem :
    (∀ b : AskBody,
      (b.question = none ∨ trimStr (b.question.getD "") = "" ∨
          1000 < (trimStr (b.question.getD "")).length ∨
          b.entity = none ∨ b.entity = some "" ∨
          b.taskName = none ∨ b.taskName = some "") →
        ∃ m, askQuestionHandler b = .reject 400 m ∧
          m ∈ ["Question is required and must be non-empty", "Entity is required",
               "Task name is required", "Question too long (max 1000 characters)"]) ∧
    (∀ b : AnalysisBody,
      (b.taskName = none ∨ b.taskName = some "" ∨
          b.entity = none ∨ b.entity = some "") →
        getTaskAnalysisHandler b = .reject 400 "Missing taskName or entity") := by
  constructor
  · intro b hyp
    unfold askQuestionHandler
    split
    · exact ⟨_, rfl, by simp⟩
    · split
      · exact ⟨_, rfl, by simp⟩
      · split
        · exact ⟨_, rfl, by simp⟩
        · split
          · exact ⟨_, rfl, by simp⟩
          · rename_i hq he ht hl
            exfalso
            rcases hyp with h | h | h | h | h | h | h
            · exact hq (by simp [optFalsy, h])
            · exact hq (by simp [h])
            · exact hl (by simp [h])
            · exact he (by simp [optFalsy, h])
            · exact he (by simp [optFalsy, h])
            · exact ht (by simp [optFalsy, h])
            · exact ht (by simp [optFalsy, h])
  · intro b hyp
    unfold getTaskAnalysisHandler
    rcases hyp with h | h | h | h <;> simp [optFalsy, h]

/-! ## Claim C6 -/

/-- C6 counterexample: Sunday 2025-11-16 lies in ISO week 46 (the last
day of that week, since ISO weeks start Monday), but the code computes
the in-bucket offset from `getDay() = 0`, placing the marker at
`0.5/7` — the left edge of the bucket — while the ISO day-of-week
formula of the claim gives `7.5/7`.  The code's offset is therefore not
the ISO one. -/
theorem C6_counterexample :
    findTodayColumnPosition ⟨⟨2025, 11, 16⟩, 12⟩ ["W46 2025"] = some (0, 1 / 14) ∧
      specIsoWeekPercentage ⟨2025, 11, 16⟩ = 15 / 14 ∧
      (1 / 14 : ℚ) ≠ 15 / 14 := by
  refine ⟨?_, ?_, by norm_num⟩
  · have h : findTodayColumnPosition ⟨⟨2025, 11, 16⟩, 12⟩ ["W46 2025"] =
        some (0, weekPercentage ⟨⟨2025, 11, 16⟩, 12⟩) := rfl
    rw [h]
    norm_num [weekPercentage, show jsDayOfWeek ⟨2025, 11, 16⟩ = 0 from by decide]
  · norm_num [specIsoWeekPercentage, show isoDayNum ⟨2025, 11, 16⟩ = 7 from by decide]

/-- C6 (amended): for week-granularity columns the bucket is matched by
the ISO week number (`getWeek`: weeks start Monday, week 1 contains the
year's first Thursday), but the fractional offset is
`(getDay() + 0.5)/7` with the Sunday-based JS day-of-week (0 = Sunday …
6 = Saturday), which agrees with the ISO day number on Monday–Saturday
and differs on Sunday.  For a Friday (day 5 in both conventions) the
offset is `(5 + 0.5)/7`. -/
theorem C6_theorem :
    (∀ (t : DateTime) (c : String) (rest : List String) (i : Nat),
        isYearFormat c = false → isQuarterFormat c = false →
        isMonthFormat c = false → isWeekFormat c = true →
        indexOfStr (weekLabel t) (c :: rest) = some i →
        findTodayColumnPosition t (c :: rest) =
          some (i, ((jsDayOfWeek t.date : ℚ) + 1 / 2) / 7)) ∧
      jsDayOfWeek ⟨2025, 11, 14⟩ = 5 ∧
      getWeek ⟨2025, 11, 14⟩ = 46 ∧
      findTodayColumnPosition ⟨⟨2025, 11, 14⟩, 12⟩ ["W45 2025", "W46 2025"] =
        some (1, (5 + 1 / 2) / 7) := by
  refine ⟨?_, by decide, by decide, ?_⟩
  · intro t c rest i hY hQ hM hW hIdx
    simp [findTodayColumnPosition, hY, hQ, hM, hW, hIdx, weekPercentage]
  · have h : findTodayColumnPosition ⟨⟨2025, 11, 14⟩, 12⟩ ["W45 2025", "W46 2025"] =
        some (1, weekPercentage ⟨⟨2025, 11, 14⟩, 12⟩) := rfl
    rw [h]
    norm_num [weekPercentage, show jsDayOfWeek ⟨2025, 11, 14⟩ = 5 from by decide]

/-- C6 witness: the general week-branch statement applied to Friday
2025-11-14 and the columns `["W45 2025", "W46 2025"]`. -/
theorem C6_witness :
    findTodayColumnPosition ⟨⟨2025, 11, 14⟩, 12⟩ ["W45 2025", "W46 2025"] =
      some (1, ((jsDayOfWeek (⟨2025, 11, 14⟩ : Date) : ℚ) + 1 / 2) / 7) :=
  C6_theorem.1 ⟨⟨2025, 11, 14⟩, 12⟩ "W45 2025" ["W46 2025"] 1
    (by decide) (by decide) (by decide) (by decide) (by decide)

/-! ## Claim C7 -/

/-- C7 counterexample: at 2025-11-14 (the renderer's noon-anchored
today value) on quarterly columns the code returns index 3 with offset
`44.5/91 = 89/182`: the numerator is the elapsed time from Oct 1
midnight in days and the denominator is `(Dec 31 − Oct 1)/86400000 =
91`, not 92.  `89/182` differs from `45/92` and from `44/92`, the two
readings of the claim's day-in-quarter/92. -/
theorem C7_counterexample :
    findTodayColumnPosition ⟨⟨2025, 11, 14⟩, 12⟩
        ["Q1 2025", "Q2 2025", "Q3 2025", "Q4 2025"] = some (3, 89 / 182) ∧
      (89 / 182 : ℚ) ≠ 45 / 92 ∧ (89 / 182 : ℚ) ≠ 44 / 92 := by
  refine ⟨?_, by norm_num, by norm_num⟩
  have h : findTodayColumnPosition ⟨⟨2025, 11, 14⟩, 12⟩
      ["Q1 2025", "Q2 2025", "Q3 2025", "Q4 2025"] =
        some (3, quarterPercentage ⟨⟨2025, 11, 14⟩, 12⟩) := rfl
  rw [h]
  norm_num [quarterPercentage, elapsedDays,
    show startOfQuarter ⟨2025, 11, 14⟩ = ⟨2025, 10, 1⟩ from by decide,
    show nextQuarterStart ⟨2025, 11, 14⟩ = ⟨2026, 1, 1⟩ from by decide,
    show rataDie ⟨2025, 11, 14⟩ = 739569 from by decide,
    show rataDie ⟨2025, 10, 1⟩ = 739525 from by decide,
    show rataDie ⟨2026, 1, 1⟩ = 739617 from by decide]

/-- C7 (amended): for the quarterly columns and the date 2025-11-14 the
function returns index 3 (the "Q4 2025" column) with fractional offset
`elapsed-days-from-Oct-1 / 91`, where the elapsed time is 44.5 days (the
renderer anchors today at 12:00) and 91 is the number of days between
the Oct 1 and Dec 31 midnights — the code divides by
`(endOfQuarter − startOfQuarter)/86400000 = 91`, not by the 92 calendar
days of Q4. -/
theorem C7_theorem :
    findTodayColumnPosition ⟨⟨2025, 11, 14⟩, 12⟩
        ["Q1 2025", "Q2 2025", "Q3 2025", "Q4 2025"] = some (3, 89 / 182) ∧
      elapsedDays ⟨⟨2025, 11, 14⟩, 12⟩ ⟨2025, 10, 1⟩ = 89 / 2 ∧
      daysBetween ⟨2025, 10, 1⟩ ⟨2025, 12, 31⟩ = 91 ∧
      (89 / 182 : ℚ) = (89 / 2) / 91 := by
  refine ⟨?_, ?_, ?_, by norm_num⟩
  · have h : findTodayColumnPosition ⟨⟨2025, 11, 14⟩, 12⟩
        ["Q1 2025", "Q2 2025", "Q3 2025", "Q4 2025"] =
          some (3, quarterPercentage ⟨⟨2025, 11, 14⟩, 12⟩) := rfl
    rw [h]
    norm_num [quarterPercentage, elapsedDays,
      show startOfQuarter ⟨2025, 11, 14⟩ = ⟨2025, 10, 1⟩ from by decide,
      show nextQuarterStart ⟨2025, 11, 14⟩ = ⟨2026, 1, 1⟩ from by decide,
      show rataDie ⟨2025, 11, 14⟩ = 739569 from by decide,
      show rataDie ⟨2025, 10, 1⟩ = 739525 from by decide,
      show rataDie ⟨2026, 1, 1⟩ = 739617 from by decide]
  · norm_num [elapsedDays,
      show rataDie ⟨2025, 11, 14⟩ = 739569 from by decide,
      show rataDie ⟨2025, 10, 1⟩ = 739525 from by decide]
  · norm_num [daysBetween,
      show rataDie ⟨2025, 10, 1⟩ = 739525 from by decide,
      show rataDie ⟨2025, 12, 31⟩ = 739616 from by decide]

/-! ## Claim C8 -/

/-- C8: `findTodayColumnPosition` is a total function (its translation
is a plain Lean function; no operation in the source branch can throw)
and it returns null — no marker — in every no-match situation: empty
columns; a date whose year/quarter/month/week bucket label is absent
from `timeColumns` under the granularity matched by the first label; or
a first label matching none of the four formats. -/
theorem C8_theorem (t : DateTime) (cols : List String)
    (h : cols = [] ∨
      ∃ c rest, cols = c :: rest ∧
        ((isYearFormat c = true ∧ indexOfStr (yearLabel t) cols = none) ∨
         (isYearFormat c = false ∧ isQuarterFormat c = true ∧
            indexOfStr (quarterLabel t) cols = none) ∨
         (isYearFormat c = false ∧ isQuarterFormat c = false ∧
            isMonthFormat c = true ∧ indexOfStr (monthLabel t) cols = none) ∨
         (isYearFormat c = false ∧ isQuarterFormat c = false ∧
            isMonthFormat c = false ∧ isWeekFormat c = true ∧
            indexOfStr (weekLabel t) cols = none) ∨
         (isYearFormat c = false ∧ isQuarterFormat c = false ∧
            isMonthFormat c = false ∧ isWeekFormat c = false))) :
    findTodayColumnPosition t cols = none := by
  rcases h with rfl | ⟨c, rest, rfl, hcase⟩
  · rfl
  · rcases hcase with ⟨h1, h2⟩ | ⟨h1, h2, h3⟩ | ⟨h1, h2, h3, h4⟩ |
      ⟨h1, h2, h3, h4, h5⟩ | ⟨h1, h2, h3, h4⟩ <;>
      simp [findTodayColumnPosition, *]

/-- C8 witness: year columns not containing the date's year produce no
marker. -/
theorem C8_witness :
    findTodayColumnPosition ⟨⟨2025, 11, 14⟩, 12⟩ ["2024"] = none :=
  C8_theorem ⟨⟨2025, 11, 14⟩, 12⟩ ["2024"]
    (Or.inr ⟨"2024", [], rfl, Or.inl ⟨by decide, by decide⟩⟩)

/-! ## Claim C9 -/

/-- C9 counterexample: a successful response whose body is missing
`timeColumns` (but has a nonempty `data`) is rejected by
`handleChartGenerate` with the generic structure message
"Invalid chart data structure received from server", not with the
distinct semantic no-tasks message the claim requires for
missing-or-empty fields. -/
theorem C9_counterexample :
    handleChartResponse
        ⟨true, 200, true, none, "", some ⟨none, some [⟨"T", false, "E", none⟩]⟩⟩ =
      .error invalidStructureMessage ∧
      invalidStructureMessage ≠ noTasksMessage := by
  exact ⟨rfl, by decide⟩

/-- C9 (amended): after a successful call, `timeColumns` or `data` that
are present but empty are a semantic failure surfaced with the distinct
no-tasks message (telling the user to revisit the documents/prompt);
fields that are missing altogether are instead surfaced with the
structure-error message; the two messages differ, and a non-ok response
takes the separate transport branch with its own message. -/
theorem C9_theorem :
    (∀ (resp : ChartFetchResponse) (gd : GanttClientData)
        (tc : List String) (rows : List Row),
      resp.ok = true → resp.body = some gd →
      gd.timeColumns = some tc → gd.data = some rows →
      (tc = [] ∨ rows = []) →
      handleChartResponse resp = .error noTasksMessage) ∧
    (∀ (resp : ChartFetchResponse) (gd : GanttClientData),
      resp.ok = true → resp.body = some gd →
      (gd.timeColumns = none ∨ gd.data = none) →
      handleChartResponse resp = .error invalidStructureMessage) ∧
    (∀ resp : ChartFetchResponse, resp.ok = false →
      handleChartResponse resp = .error (transportErrorMessage resp)) ∧
    noTasksMessage ≠ invalidStructureMessage := by
  refine ⟨?_, ?_, ?_, by decide⟩
  · intro resp gd tc rows hok hbody htc hdata hemp
    unfold handleChartResponse
    rcases hemp with rfl | rfl <;> simp [hok, hbody, htc, hdata]
  · intro resp gd hok hbody hmiss
    unfold handleChartResponse
    rcases hmiss with hm | hm <;> cases hgd₁ : gd.timeColumns <;> cases hgd₂ : gd.data <;>
      simp_all
  · intro resp hok
    unfold handleChartResponse
    simp [hok]

/-- C9 witness: empty `timeColumns` yields the semantic no-tasks
message; a missing `data` field yields the structure message. -/
theorem C9_witness :
    handleChartResponse ⟨true, 200, true, none, "",
        some ⟨some [], some [⟨"T", false, "E", none⟩]⟩⟩ = .error noTasksMessage ∧
      handleChartResponse ⟨true, 200, true, none, "",
        some ⟨some ["2025"], none⟩⟩ = .error invalidStructureMessage :=
  ⟨ C9_theorem.1 ⟨true, 200, true, none, "", some ⟨some [], some [⟨"T", false, "E", none⟩]⟩⟩
      ⟨some [], some [⟨"T", false, "E", none⟩]⟩ [] [⟨"T", false, "E", none⟩]
      rfl rfl rfl rfl (Or.inl rfl),
    C9_theorem.2.1 ⟨true, 200, true, none, "", some ⟨some ["2025"], none⟩⟩
      ⟨some ["2025"], none⟩ rfl rfl (Or.inr rfl)⟩

/-! ## Claim C10 -/

/-- C10: every `/generate-chart` request resets the Grounding Store
before any file is touched: the handler's outcome (final store and
response) is independent of the previous store contents; the resulting
store is exactly what processing this request's files from the empty
store produces; and the filename cache holds an initial segment of this
request's sorted filenames — so nothing of a previous upload survives,
also when extraction fails. -/
theorem C10_theorem (prev₁ prev₂ : ServerState) (files : List UploadFile) :
    generateChartHandler prev₁ files = generateChartHandler prev₂ files ∧
      (generateChartHandler prev₁ files).1 =
        (processFiles (sortFiles files) ⟨"", []⟩).1 ∧
      ∃ j, (generateChartHandler prev₁ files).1.researchFilesCache =
        ((sortFiles files).map UploadFile.originalname).take j := by
  have hstate : (generateChartHandler prev₁ files).1 =
      (processFiles (sortFiles files) ⟨"", []⟩).1 := by
    simp only [generateChartHandler]
    rcases hpr : processFiles (sortFiles files) ⟨"", []⟩ with ⟨st, o⟩
    cases o <;> simp
  refine ⟨rfl, hstate, ?_⟩
  obtain ⟨j, hj⟩ := processFiles_filenames (sortFiles files) ⟨"", []⟩
  refine ⟨j, ?_⟩
  rw [hstate, hj]
  simp

/-- C5 witness: an empty question is rejected with the question message;
a missing taskName on the analysis endpoint is rejected with its
message. -/
theorem C5_witness :
    (∃ m, askQuestionHandler ⟨some "T", some "E", some "   "⟩ = .reject 400 m ∧
        m ∈ ["Question is required and must be non-empty", "Entity is required",
             "Task name is required", "Question too long (max 1000 characters)"]) ∧
      getTaskAnalysisHandler ⟨none, some "E"⟩ = .reject 400 "Missing taskName or entity" :=
  ⟨ C5_theorem.1 ⟨some "T", some "E", some "   "⟩ (Or.inr (Or.inl (by decide))),
    C5_theorem.2 ⟨none, some "E"⟩ (Or.inl rfl)⟩
